import Mathlib

/-!
# Verification of the openapi-mcp-generator runtime against its specification

Shallow embedding of the Python runtime (`src/runtime/...`) in Lean 4.
Strings are modelled by Lean `String` over their character lists; Python
dictionaries by insertion-ordered association lists; `Optional[T]` by
`Option T`; fallible code by `Except String`.  Python truthiness of strings,
numbers and options is modelled explicitly where the source relies on it.
`str.lower`/`str.upper` are modelled on the ASCII range (the only range the
repository's validated identifiers inhabit).
-/

namespace MCPRuntime

/-- ASCII lowercase letter test, the `[a-z]` class of the source's regexes. -/
def lcChar (c : Char) : Bool := 'a' ≤ c && c ≤ 'z'

/-- ASCII uppercase letter test, the `[A-Z]` class of the source's regexes. -/
def ucChar (c : Char) : Bool := 'A' ≤ c && c ≤ 'Z'

/-- ASCII digit test, the `\d` / `[0-9]` class of the source's regexes. -/
def dgChar (c : Char) : Bool := '0' ≤ c && c ≤ '9'

/-- ASCII letter test, the `[a-zA-Z]` class of the source's regexes. -/
def alphaChar (c : Char) : Bool := lcChar c || ucChar c

/-- ASCII model of Python's per-character `str.lower`: `A`-`Z` (code points
65-90) map to `a`-`z`, every other character is unchanged. -/
def pyLowerChar (c : Char) : Char :=
  if 65 ≤ c.toNat && c.toNat ≤ 90 then Char.ofNat (c.toNat + 32) else c

/-- ASCII model of Python's per-character `str.upper`. -/
def pyUpperChar (c : Char) : Char :=
  if 97 ≤ c.toNat && c.toNat ≤ 122 then Char.ofNat (c.toNat - 32) else c

/-- ASCII model of Python's `str.lower`. -/
def pyLowerStr (s : String) : String := ⟨s.data.map pyLowerChar⟩

/-- ASCII model of Python's `str.upper`. -/
def pyUpperStr (s : String) : String := ⟨s.data.map pyUpperChar⟩

/-- `str.replace(old, "")` for a single-character `old`: every occurrence of
the character is removed. -/
def stripChar (c : Char) (s : String) : String := ⟨s.data.filter (fun d => d ≠ c)⟩

/-- `str.replace(old, new)` for single-character `old` and `new`: every
occurrence of `a` becomes `b`. -/
def swapChar (a b : Char) (s : String) : String :=
  ⟨s.data.map (fun c => if c = a then b else c)⟩

/-- Does the first list start with the second (Python `str.startswith`)? -/
def startsW : List Char → List Char → Bool
  | _, [] => true
  | [], _ :: _ => false
  | a :: as, b :: bs => a = b && startsW as bs

/-- Does the first list contain the second as a contiguous run
(Python's `needle in haystack` for strings)? -/
def containsSub : List Char → List Char → Bool
  | l, n =>
    match l with
    | [] => startsW [] n
    | _ :: cs => startsW l n || containsSub cs n

/-- Python whitespace test for `str.strip()` (ASCII whitespace model). -/
def pyWsChar (c : Char) : Bool :=
  c = ' ' || c = '\t' || c = '\n' || c = '\r' || c = '\x0b' || c = '\x0c'

/-- Python `str.strip()`: drop whitespace from both ends. -/
def pyStrip (s : String) : String :=
  ⟨((s.data.dropWhile pyWsChar).reverse.dropWhile pyWsChar).reverse⟩

/-- Split a character list at every occurrence of `sep`
(Python `str.split(sep)` for a one-character separator). -/
def splitCh (sep : Char) : List Char → List (List Char)
  | [] => [[]]
  | c :: cs =>
    let r := splitCh sep cs
    if c = sep then [] :: r
    else
      match r with
      | h :: t => (c :: h) :: t
      | [] => [[c]]

/-- Split at the first occurrence of `sep` (Python `str.split(sep, 1)` when
the separator occurs): characters before it, characters after it. -/
def splitFirst (sep : Char) : List Char → (List Char × List Char)
  | [] => ([], [])
  | c :: cs =>
    if c = sep then ([], cs)
    else
      let r := splitFirst sep cs
      (c :: r.1, r.2)

/-- Python `str.isdigit()` on the ASCII range: nonempty and all digits. -/
def pyIsDigit (s : String) : Bool := !s.data.isEmpty && s.data.all dgChar

/-- Value of an ASCII digit string. -/
def digitsVal (l : List Char) : Nat :=
  l.foldl (fun a c => 10 * a + (c.toNat - 48)) 0

/-- Python `int(s)` on an (optionally `-`-prefixed) ASCII digit string. -/
def pyInt (s : String) : Int :=
  match s.data with
  | '-' :: rest => -(digitsVal rest : Int)
  | l => (digitsVal l : Int)

/-- Truthiness of a Python `Optional[str]`: `None` and `""` are falsy. -/
def truthyOptStr : Option String → Bool
  | none => false
  | some s => s ≠ ""

/-- Truthiness of a Python `Optional[float]` modelled over `Nat`:
`None` and `0.0` are falsy. -/
def truthyOptNat : Option Nat → Bool
  | none => false
  | some n => n ≠ 0

/-- Python `a or b` for `a : Optional[str]` and a string fallback `b`:
the tag value when it is truthy, else the fallback. -/
def pyOrS (a : Option String) (b : String) : String :=
  match a with
  | some s => if s = "" then b else s
  | none => b

/-- Python `a or b` for two `Optional[str]` operands. -/
def pyOrOpt (a b : Option String) : Option String :=
  match a with
  | some s => if s = "" then b else some s
  | none => b

/-- Lookup in a string-keyed association list (Python `dict.get`). -/
def lookupS (d : List (String × String)) (k : String) : Option String :=
  (d.find? (fun e => e.1 = k)).map (·.2)

/-! ## `core/secrets.py` — secret naming (claim C1) -/

/-- `SecretType` enum of `core/secrets.py`. -/
inductive SecretType where
  | api_key
  | oauth2_client_id
  | oauth2_client_secret
  | oauth2_refresh_token
  | oauth2_access_token
deriving DecidableEq

/-- The `.value` of each `SecretType` member. -/
def SecretType.value : SecretType → String
  | .api_key => "api_key"
  | .oauth2_client_id => "oauth2_client_id"
  | .oauth2_client_secret => "oauth2_client_secret"
  | .oauth2_refresh_token => "oauth2_refresh_token"
  | .oauth2_access_token => "oauth2_access_token"

/-- `generate_secret_name` of `core/secrets.py`:
`f"{connector_name}-{secret_type.value}"`, `+ f"-{suffix}"` when the suffix
is truthy, then `.replace("@", "").replace("/", "-").lower()`. -/
def generate_secret_name (connector_name : String) (secret_type : SecretType)
    (suffix : Option String) : String :=
  let base := connector_name ++ "-" ++ secret_type.value
  let base :=
    match suffix with
    | some s => if s = "" then base else base ++ "-" ++ s
    | none => base
  pyLowerStr (swapChar '/' '-' (stripChar '@' base))

/-- The claim's reading of the spec sentence, for comparison with
`generate_secret_name`: lowercase the concatenation and remove (strip)
every `@` **and every `/`**. -/
def generate_secret_name_specStripBoth (connector_name : String)
    (secret_type : SecretType) (suffix : Option String) : String :=
  let base := connector_name ++ "-" ++ secret_type.value
  let base :=
    match suffix with
    | some s => if s = "" then base else base ++ "-" ++ s
    | none => base
  stripChar '/' (stripChar '@' (pyLowerStr base))

/-- The amended spec formula: lowercase the concatenation, remove every `@`,
and replace every `/` by `-` (stripping applied to the lowercased string;
the two orders agree, which the amended theorem proves). -/
def generate_secret_name_specAmended (connector_name : String)
    (secret_type : SecretType) (suffix : Option String) : String :=
  let base := connector_name ++ "-" ++ secret_type.value
  let base :=
    match suffix with
    | some s => if s = "" then base else base ++ "-" ++ s
    | none => base
  swapChar '/' '-' (stripChar '@' (pyLowerStr base))

/-! ## `core/registry.py` — hot-reload update detection (claim C2) -/

/-- The fields of a `LoadedConnector` that `check_for_updates` reads:
its name, its optional source file path, and the recorded modification
time (modelled as `Nat` ticks). -/
structure RegConnector where
  name : String
  file_path : Option String
  file_mtime : Option Nat

/-- One loop iteration of `InternalRegistry.check_for_updates`: skip the
connector when its path or recorded mtime is falsy, skip when `stat` fails
(`OSError`, file deleted), and append its name when the current mtime is
strictly newer. -/
def checkConnUpdate (fs : String → Option Nat) (acc : List String)
    (c : RegConnector) : List String :=
  if !truthyOptStr c.file_path || !truthyOptNat c.file_mtime then acc
  else
    match c.file_path with
    | none => acc
    | some p =>
      match c.file_mtime with
      | none => acc
      | some m =>
        match fs p with
        | none => acc
        | some cur => if m < cur then acc ++ [c.name] else acc

/-- `InternalRegistry.check_for_updates`: empty unless hot-reload is
enabled; empty when the project has no registry; otherwise the names of
connectors whose file's current mtime (read through `fs`, the filesystem
`stat` oracle) is strictly newer than the recorded one.  The source method
only reads the registry — it never updates any recorded `file_mtime` — so
it is embedded as a pure function of the unchanged registry state. -/
def check_for_updates (hotReload : Bool) (fs : String → Option Nat)
    (registry : Option (List RegConnector)) : List String :=
  if !hotReload then []
  else
    match registry with
    | none => []
    | some cs => cs.foldl (checkConnUpdate fs) []

/-- Does one `check_for_updates` iteration report this connector: truthy
path and recorded mtime, successful `stat`, and a strictly newer current
mtime. -/
def reportsUpdate (fs : String → Option Nat) (c : RegConnector) : Bool :=
  match c.file_path, c.file_mtime with
  | some p, some m =>
    if p = "" || m = 0 then false
    else
      match fs p with
      | some cur => decide (m < cur)
      | none => false
  | _, _ => false

/-- Filesystem oracle for the C2 scenario: every file now has mtime 2. -/
def exFs : String → Option Nat := fun _ => some 2

/-- A file-backed connector whose recorded mtime 1 is older than the
file's current mtime 2. -/
def exConn : RegConnector := ⟨"conn", some "conn.yaml", some 1⟩

/-! ## Python values — JSON/YAML data as handled by the runtime -/

/-- Python values as they occur in parsed YAML/JSON documents and tool
arguments: strings, ints, bools, floats (kept opaque, identified by their
source literal), lists, string-keyed dicts (insertion-ordered association
lists), and `None`. -/
inductive PyVal where
  | pstr : String → PyVal
  | pint : Int → PyVal
  | pbool : Bool → PyVal
  | pfloat : String → PyVal
  | plist : List PyVal → PyVal
  | pdict : List (String × PyVal) → PyVal
  | pnone : PyVal

/-- Dictionary lookup (Python `d[k]` / `k in d`) on a `PyVal` dict body. -/
def lookupD (d : List (String × PyVal)) (k : String) : Option PyVal :=
  (d.find? (fun e => e.1 = k)).map (·.2)

/-- Is `k` a key of the dict body (Python `k in d`)? -/
def hasKeyD (d : List (String × PyVal)) (k : String) : Bool :=
  d.any (fun e => e.1 = k)

/-- Python `d[k] = v` on a dict body whose keys are unique: replace the
value stored under `k` (callers only use it on present keys). -/
def updateD (d : List (String × PyVal)) (k : String) (v : PyVal) :
    List (String × PyVal) :=
  d.map (fun e => if e.1 = k then (e.1, v) else e)

mutual

/-- Python `str(v)` for the values the runtime passes around (ASCII model;
floats print as their stored literal). -/
def pyStrV : PyVal → String
  | .pstr s => s
  | .pint n => toString n
  | .pbool b => if b then "True" else "False"
  | .pfloat r => r
  | .pnone => "None"
  | .plist xs => "[" ++ String.intercalate ", " (pyReprList xs) ++ "]"
  | .pdict es => "\x7b" ++ String.intercalate ", " (pyReprEntries es) ++ "\x7d"

/-- Python `repr(v)` as used inside `str` of containers. -/
def pyReprV : PyVal → String
  | .pstr s => "'" ++ s ++ "'"
  | .pint n => toString n
  | .pbool b => if b then "True" else "False"
  | .pfloat r => r
  | .pnone => "None"
  | .plist xs => "[" ++ String.intercalate ", " (pyReprList xs) ++ "]"
  | .pdict es => "\x7b" ++ String.intercalate ", " (pyReprEntries es) ++ "\x7d"

/-- `repr` of the elements of a list value. -/
def pyReprList : List PyVal → List String
  | [] => []
  | v :: vs => pyReprV v :: pyReprList vs

/-- `repr` of the entries of a dict value. -/
def pyReprEntries : List (String × PyVal) → List String
  | [] => []
  | e :: es => ("'" ++ e.1 ++ "': " ++ pyReprV e.2) :: pyReprEntries es

end

/-! ## `models/manifest.py` — the connector manifest data model (claims C3, C10) -/

/-- The discriminated `auth` union of `models/manifest.py`:
`NoAuth`, `ApiKeyAuth{key_name, location, scheme?}`,
`OAuth2ClientCredentialsAuth{token_url, scopes?}`. -/
inductive ToolAuth where
  | noAuth : ToolAuth
  | apiKey (key_name : String) (location : String) (scheme : Option String) : ToolAuth
  | oauth2 (token_url : String) (scopes : Option (List String)) : ToolAuth

/-- `ConnectorTool` of `models/manifest.py` (schemas kept as parsed
YAML/JSON values). -/
structure ConnectorTool where
  name : String
  description : String
  input_schema : PyVal
  output_schema : PyVal
  endpoint : String
  auth : ToolAuth

/-- `ConnectorManifest` of `models/manifest.py`. -/
structure ConnectorManifest where
  name : String
  version : String
  tools : List ConnectorTool
  base_url : Option String

/-- `ConnectorTool.validate_name`: regex `^[a-z][a-z0-9_]*$`. -/
def toolNameOk (s : String) : Bool :=
  match s.data with
  | [] => false
  | c :: cs => lcChar c && cs.all (fun d => lcChar d || dgChar d || d = '_')

/-- The HTTP methods accepted by `ConnectorTool.validate_endpoint`. -/
def endpointHttpMethods : List String :=
  ["GET", "POST", "PUT", "PATCH", "DELETE", "HEAD", "OPTIONS"]

/-- Character class `[a-zA-Z0-9_-]` of the legacy endpoint regex. -/
def legacyWordChar (c : Char) : Bool :=
  alphaChar c || dgChar c || c = '_' || c = '-'

/-- Matcher for the tail of the legacy endpoint regex
`^[a-zA-Z][a-zA-Z0-9_-]*(?:\.[a-zA-Z0-9][a-zA-Z0-9_-]*)*$` after its first
character: every `.` must be followed by an alphanumeric character, every
other character must be in the word class (the regex is deterministic since
`.` is not in the word class). -/
def legacyTailOk : List Char → Bool
  | [] => true
  | c :: cs =>
    if c = '.' then
      match cs with
      | [] => false
      | d :: ds => (alphaChar d || dgChar d) && legacyTailOk ds
    else legacyWordChar c && legacyTailOk cs

/-- The legacy dot-notation branch of `validate_endpoint`. -/
def legacyEndpointOk (l : List Char) : Bool :=
  match l with
  | [] => false
  | c :: cs => alphaChar c && legacyTailOk cs

/-- `ConnectorTool.validate_endpoint` as a success predicate: when the
endpoint contains a space it is split once into method and path, the
upper-cased method must be one of the seven accepted HTTP methods and the
path must start with `/`; otherwise the legacy dot-notation regex must
match. -/
def endpointOk (v : String) : Bool :=
  if v.data.contains ' ' then
    let parts := splitFirst ' ' v.data
    endpointHttpMethods.contains (pyUpperStr ⟨parts.1⟩) && startsW parts.2 ['/']
  else legacyEndpointOk v.data

/-- Character class `[a-z0-9-._~]` of the connector-name regex. -/
def npmNameChar (c : Char) : Bool :=
  lcChar c || dgChar c || c = '-' || c = '.' || c = '_' || c = '~'

/-- The unscoped part `[a-z][a-z0-9-._~]*` of the connector-name regex. -/
def npmMainOk (l : List Char) : Bool :=
  match l with
  | [] => false
  | c :: cs => lcChar c && cs.all npmNameChar

/-- After `@` and the first scope character: scope-class characters up to a
single `/`, then the unscoped part (deterministic since `/` is not in the
class). -/
def npmScopeTailOk : List Char → Bool
  | [] => false
  | c :: cs => if c = '/' then npmMainOk cs else npmNameChar c && npmScopeTailOk cs

/-- `ConnectorManifest.validate_name`: regex
`^(@[a-z][a-z0-9-._~]*/)?[a-z][a-z0-9-._~]*$`. -/
def connectorNameOk (s : String) : Bool :=
  match s.data with
  | '@' :: c :: cs => lcChar c && npmScopeTailOk cs
  | l => npmMainOk l

/-- Numeric identifier `0|[1-9]\d*` of the semver regex. -/
def semverNumOk (l : List Char) : Bool :=
  match l with
  | [] => false
  | [c] => dgChar c
  | c :: cs => ('1' ≤ c && c ≤ '9') && cs.all dgChar

/-- Pre-release identifier `0|[1-9]\d*|\d*[a-zA-Z-][0-9a-zA-Z-]*`:
nonempty, all characters alphanumeric or `-`, and if all-digits then
without a redundant leading zero. -/
def semverPreIdOk (l : List Char) : Bool :=
  !l.isEmpty && l.all (fun c => alphaChar c || dgChar c || c = '-') &&
    (!l.all dgChar || semverNumOk l)

/-- Build identifier `[0-9a-zA-Z-]+`. -/
def semverBuildIdOk (l : List Char) : Bool :=
  !l.isEmpty && l.all (fun c => alphaChar c || dgChar c || c = '-')

/-- The `major.minor.patch` core of the semver regex. -/
def semverCoreOk (l : List Char) : Bool :=
  match splitCh '.' l with
  | [a, b, c] => semverNumOk a && semverNumOk b && semverNumOk c
  | _ => false

/-- `ConnectorManifest.validate_version`: the semver regex
`^core(?:-(pre))?(?:\+(build))?$`.  The first `+` starts the build part and
the first `-` before it separates core from pre-release (both separators
are outside the character classes of the parts they delimit, so the regex
is deterministic). -/
def semverOk (s : String) : Bool :=
  let l := s.data
  let plus := splitFirst '+' l
  let buildOk :=
    if l.contains '+' then (splitCh '.' plus.2).all semverBuildIdOk &&
      !(plus.2.contains '+')
    else true
  let corePre := if l.contains '+' then plus.1 else l
  let dash := splitFirst '-' corePre
  let preOk :=
    if corePre.contains '-' then (splitCh '.' dash.2).all semverPreIdOk
    else true
  let core := if corePre.contains '-' then dash.1 else corePre
  semverCoreOk core && preOk && buildOk

/-- Uniqueness of a list of strings, the `len(names) != len(set(names))`
checks of the `tools` validators. -/
def nodupStr : List String → Bool
  | [] => true
  | x :: xs => !xs.contains x && nodupStr xs

/-- The `validate_json_schema` field validator: the schema must be a dict,
pass `jsonschema.Draft7Validator.check_schema` (a third-party library call,
abstracted as the oracle `chk`), and carry a top-level `type` or `$ref`
key. -/
def schemaOk (chk : PyVal → Bool) (v : PyVal) : Bool :=
  match v with
  | .pdict d => chk v && (hasKeyD d "type" || hasKeyD d "$ref")
  | _ => false

/-- The `Literal["header", "query", "cookie"]` constraint pydantic places on
`ApiKeyAuth.location` (the other variants carry no extra constraint). -/
def authOk : ToolAuth → Bool
  | .apiKey _ l _ => l = "header" || l = "query" || l = "cookie"
  | _ => true

/-- All constraints pydantic enforces on a `ConnectorTool`: field length
bounds, the name and endpoint validators, both schema validators, and the
location literal of its auth. -/
def validTool (chk : PyVal → Bool) (t : ConnectorTool) : Bool :=
  (1 ≤ t.name.length && t.name.length ≤ 100) && toolNameOk t.name &&
  (1 ≤ t.description.length && t.description.length ≤ 1000) &&
  schemaOk chk t.input_schema && schemaOk chk t.output_schema &&
  (1 ≤ t.endpoint.length && t.endpoint.length ≤ 200) && endpointOk t.endpoint &&
  authOk t.auth

/-- All constraints pydantic enforces on a `ConnectorManifest`: field
bounds, the name and version validators, every tool valid, and unique tool
names and endpoints. -/
def validManifest (chk : PyVal → Bool) (m : ConnectorManifest) : Bool :=
  (1 ≤ m.name.length && m.name.length ≤ 100) && connectorNameOk m.name &&
  semverOk m.version &&
  (1 ≤ m.tools.length && m.tools.length ≤ 50) &&
  m.tools.all (validTool chk) &&
  nodupStr (m.tools.map (·.name)) && nodupStr (m.tools.map (·.endpoint))

/-- `model_dump(exclude_none=True)` of an auth value: the discriminator
first, then the declared fields, `None` fields omitted. -/
def dumpAuth : ToolAuth → PyVal
  | .noAuth => .pdict [("type", .pstr "none")]
  | .apiKey k loc sch =>
    .pdict ([("type", .pstr "api_key"), ("key_name", .pstr k),
             ("location", .pstr loc)] ++
      (match sch with
       | some s => [("scheme", PyVal.pstr s)]
       | none => []))
  | .oauth2 u sc =>
    .pdict ([("type", .pstr "oauth2_client_credentials"),
             ("token_url", .pstr u)] ++
      (match sc with
       | some l => [("scopes", PyVal.plist (l.map PyVal.pstr))]
       | none => []))

/-- `model_dump(exclude_none=True)` of a tool, fields in declaration
order (no field of a constructed tool is `None`). -/
def dumpTool (t : ConnectorTool) : PyVal :=
  .pdict [("name", .pstr t.name), ("description", .pstr t.description),
          ("input_schema", t.input_schema), ("output_schema", t.output_schema),
          ("endpoint", .pstr t.endpoint), ("auth", dumpAuth t.auth)]

/-- `ConnectorManifest.to_yaml_dict`: rebuild `{connector: {name, version,
tools}}` from the model dump and add `base_url` only when it is truthy
(`if data.get("base_url")`). -/
def to_yaml_dict (m : ConnectorManifest) : PyVal :=
  let base := [("name", PyVal.pstr m.name), ("version", PyVal.pstr m.version),
               ("tools", PyVal.plist (m.tools.map dumpTool))]
  let conn :=
    match m.base_url with
    | some b => if b = "" then base else base ++ [("base_url", PyVal.pstr b)]
    | none => base
  .pdict [("connector", .pdict conn)]

/-- Pydantic element-wise validation of a `List[str]` field. -/
def allStrings : List PyVal → Option (List String)
  | [] => some []
  | .pstr s :: xs =>
    match allStrings xs with
    | some l => some (s :: l)
    | none => none
  | _ => none

/-- Pydantic parsing of the `auth` field back from a dump: dispatch on the
`type` discriminator; `key_name`/`token_url` required strings;
`location` a literal with default `"header"`; `scheme`/`scopes` optional. -/
def parseAuth (v : PyVal) : Except String ToolAuth :=
  match v with
  | .pdict d =>
    match lookupD d "type" with
    | some (.pstr t) =>
      if t = "none" then .ok .noAuth
      else if t = "api_key" then
        match lookupD d "key_name" with
        | some (.pstr k) =>
          let locV := match lookupD d "location" with
            | some lv => lv
            | none => .pstr "header"
          match locV with
          | .pstr l =>
            if l = "header" || l = "query" || l = "cookie" then
              match lookupD d "scheme" with
              | none => .ok (.apiKey k l none)
              | some .pnone => .ok (.apiKey k l none)
              | some (.pstr s) => .ok (.apiKey k l (some s))
              | some _ => .error "scheme must be a string"
            else .error "location must be header, query or cookie"
          | _ => .error "location must be a string literal"
        | _ => .error "key_name is required"
      else if t = "oauth2_client_credentials" then
        match lookupD d "token_url" with
        | some (.pstr u) =>
          match lookupD d "scopes" with
          | none => .ok (.oauth2 u none)
          | some .pnone => .ok (.oauth2 u none)
          | some (.plist xs) =>
            match allStrings xs with
            | some l => .ok (.oauth2 u (some l))
            | none => .error "scopes must be strings"
          | some _ => .error "scopes must be a list"
        | _ => .error "token_url is required"
      else .error "unknown auth type"
    | _ => .error "auth discriminator missing"
  | _ => .error "auth must be an object"

/-- Pydantic parsing of one tool dict: required typed fields, field
constraints and validators in order, `auth` defaulting to `NoAuth`. -/
def parseTool (chk : PyVal → Bool) (v : PyVal) : Except String ConnectorTool :=
  match v with
  | .pdict d =>
    match lookupD d "name", lookupD d "description", lookupD d "input_schema",
          lookupD d "output_schema", lookupD d "endpoint" with
    | some (.pstr nm), some (.pstr ds), some isc, some osc, some (.pstr ep) =>
      if !(1 ≤ nm.length && nm.length ≤ 100) then .error "tool name length"
      else if !toolNameOk nm then .error "invalid tool name"
      else if !(1 ≤ ds.length && ds.length ≤ 1000) then .error "description length"
      else if !schemaOk chk isc then .error "invalid input_schema"
      else if !schemaOk chk osc then .error "invalid output_schema"
      else if !(1 ≤ ep.length && ep.length ≤ 200) then .error "endpoint length"
      else if !endpointOk ep then .error "invalid endpoint"
      else
        match lookupD d "auth" with
        | none => .ok ⟨nm, ds, isc, osc, ep, .noAuth⟩
        | some av =>
          match parseAuth av with
          | .ok a => .ok ⟨nm, ds, isc, osc, ep, a⟩
          | .error e => .error e
    | _, _, _, _, _ => .error "missing required tool field"
  | _ => .error "tool must be an object"

/-- Parse every element of the `tools` list. -/
def parseTools (chk : PyVal → Bool) : List PyVal → Except String (List ConnectorTool)
  | [] => .ok []
  | v :: vs =>
    match parseTool chk v with
    | .error e => .error e
    | .ok t =>
      match parseTools chk vs with
      | .error e => .error e
      | .ok ts => .ok (t :: ts)

/-- Pydantic construction `ConnectorManifest(**connector_data)`:
`extra="forbid"` on the four declared keys, required typed fields, field
constraints and the model validators. -/
def parseManifest (chk : PyVal → Bool) (v : PyVal) : Except String ConnectorManifest :=
  match v with
  | .pdict d =>
    if !(d.all (fun e => e.1 = "name" || e.1 = "version" || e.1 = "tools" ||
        e.1 = "base_url")) then .error "extra fields are forbidden"
    else
      match lookupD d "name", lookupD d "version", lookupD d "tools" with
      | some (.pstr nm), some (.pstr vs), some (.plist ts) =>
        if !(1 ≤ nm.length && nm.length ≤ 100) then .error "name length"
        else if !connectorNameOk nm then .error "invalid connector name"
        else if !semverOk vs then .error "invalid version"
        else
          match parseTools chk ts with
          | .error e => .error e
          | .ok tools =>
            if !(1 ≤ tools.length && tools.length ≤ 50) then .error "tools length"
            else if !nodupStr (tools.map (·.name)) then .error "duplicate tool names"
            else if !nodupStr (tools.map (·.endpoint)) then .error "duplicate endpoints"
            else
              match lookupD d "base_url" with
              | none => .ok ⟨nm, vs, tools, none⟩
              | some .pnone => .ok ⟨nm, vs, tools, none⟩
              | some (.pstr b) => .ok ⟨nm, vs, tools, some b⟩
              | some _ => .error "base_url must be a string"
      | _, _, _ => .error "missing required manifest field"
  | _ => .error "manifest must be an object"

/-- `ConnectorManifest.from_yaml_dict`: require the top-level `connector`
key and construct the manifest from its value. -/
def from_yaml_dict (chk : PyVal → Bool) (v : PyVal) : Except String ConnectorManifest :=
  match v with
  | .pdict d =>
    match lookupD d "connector" with
    | some cd => parseManifest chk cd
    | none => .error "YAML must have top-level 'connector' key"
  | _ => .error "YAML must have top-level 'connector' key"

/-! ## `core/credential_resolver.py` — credential resolution (claims C4, C5) -/

/-- The `ResolvedCredentials` dataclass. -/
structure ResolvedCredentials where
  auth_type : String
  headers : List (String × String)
  query_params : List (String × String)
  cookies : List (String × String)
  oauth_token : Option String

/-- A stored secret as `get_secret` returns it: its value and its
metadata tags. -/
structure SecretValue where
  value : String
  tags : List (String × String)

/-- The failures `get_secret` can raise: `SecretNotFoundError` or a
`SecretStorageError` with a message. -/
inductive SecretErr where
  | notFound : SecretErr
  | storageError : String → SecretErr

/-- `CredentialResolver._resolve_api_key_credentials`.  The secret storage
backend (external I/O) is abstracted as the oracle `storage` from secret
name to fetch outcome; the secret is fetched under the deterministic name
for `(connector_name, API_KEY)`.  `key_name`, `location` and `scheme` are
read from the secret's tags with Python `or`-fallback to the tool's static
`ApiKeyAuth` declaration; the auth value is `"{scheme} {key}"` when the
resolved scheme is truthy, else the bare key; it is placed in the map
selected by the resolved location, any other location failing.
`key_name = tags.get("key_name") or tool.auth.key_name`: -/
def resolvedKeyName (secret : SecretValue) (key_name : String) : String :=
  pyOrS (lookupS secret.tags "key_name") key_name

/-- `location = tags.get("location") or tool.auth.location`. -/
def resolvedLocation (secret : SecretValue) (location : String) : String :=
  pyOrS (lookupS secret.tags "location") location

/-- `scheme = tags.get("scheme") or tool.auth.scheme`. -/
def resolvedScheme (secret : SecretValue) (scheme : Option String) : Option String :=
  pyOrOpt (lookupS secret.tags "scheme") scheme

/-- The built auth value: `f"{scheme} {api_key}"` when the resolved scheme
is truthy, else the bare key. -/
def apiKeyAuthValue (secret : SecretValue) (scheme : Option String) : String :=
  match resolvedScheme secret scheme with
  | some s => if s = "" then secret.value else s ++ " " ++ secret.value
  | none => secret.value

def resolve_api_key_credentials (storage : String → Except SecretErr SecretValue)
    (connector_name : String) (key_name : String) (location : String)
    (scheme : Option String) : Except String ResolvedCredentials :=
  match storage (generate_secret_name connector_name .api_key none) with
  | .error .notFound =>
    .error ("No API key found for connector '" ++ connector_name ++ "'")
  | .error (.storageError e) => .error ("Failed to retrieve API key: " ++ e)
  | .ok secret =>
    let kn := resolvedKeyName secret key_name
    let loc := resolvedLocation secret location
    let auth_value := apiKeyAuthValue secret scheme
    if loc = "header" then
      .ok ⟨"api_key", [(kn, auth_value)], [], [], none⟩
    else if loc = "query" then
      .ok ⟨"api_key", [], [(kn, auth_value)], [], none⟩
    else if loc = "cookie" then
      .ok ⟨"api_key", [], [], [(kn, auth_value)], none⟩
    else .error ("Unsupported API key location: " ++ loc)

/-- Python `cache[k] = v` on the OAuth token cache. -/
def insertS (d : List (String × String)) (k v : String) : List (String × String) :=
  if d.any (fun e => e.1 = k) then
    d.map (fun e => if e.1 = k then (k, v) else e)
  else d ++ [(k, v)]

/-- Python `",".join`-style comma split of a scopes tag. -/
def splitCommas (s : String) : List String :=
  (splitCh ',' s.data).map (fun l => ⟨l⟩)

/-- `token_url = tags.get("token_url") or tool.auth.token_url` of
`_resolve_oauth2_credentials`. -/
def resolvedTokenUrl (idSecret : SecretValue) (token_url_static : String) : String :=
  pyOrS (lookupS idSecret.tags "token_url") token_url_static

/-- `scopes = scopes_str.split(",") if scopes_str else (tool.auth.scopes
or [])` of `_resolve_oauth2_credentials`. -/
def resolvedScopes (idSecret : SecretValue) (scopes_static : Option (List String)) :
    List String :=
  let scopes_str := (lookupS idSecret.tags "scopes").getD ""
  if scopes_str = "" then
    match scopes_static with
    | some l => l
    | none => []
  else splitCommas scopes_str

/-- Outcome of one `_resolve_oauth2_credentials` call: the result, the
resolver's token cache afterwards, and how many token-exchange calls
(`_request_oauth2_token`, external I/O abstracted as the oracle
`exchange`) were performed. -/
structure OAuth2Outcome where
  result : Except String ResolvedCredentials
  cache : List (String × String)
  exchangeCalls : Nat

/-- `CredentialResolver._resolve_oauth2_credentials`.  A cached token under
`"{connector_name}:oauth2"` is returned as a Bearer Authorization header
with no exchange; otherwise client id/secret are fetched from storage,
`token_url` and `scopes` resolved from the id secret's tags with fallback
to the static declaration, one exchange performed, and the token cached. -/
def resolve_oauth2_credentials (storage : String → Except SecretErr SecretValue)
    (exchange : String → String → String → List String → String)
    (cache : List (String × String)) (connector_name : String)
    (token_url_static : String) (scopes_static : Option (List String)) :
    OAuth2Outcome :=
  let cache_key := connector_name ++ ":oauth2"
  match lookupS cache cache_key with
  | some tok =>
    ⟨.ok ⟨"oauth2_client_credentials",
          [("Authorization", "Bearer " ++ tok)], [], [], some tok⟩, cache, 0⟩
  | none =>
    match storage (generate_secret_name connector_name .oauth2_client_id none) with
    | .error .notFound =>
      ⟨.error ("OAuth2 credentials not found for connector '" ++
               connector_name ++ "'"), cache, 0⟩
    | .error (.storageError e) =>
      ⟨.error ("Failed to retrieve OAuth2 credentials: " ++ e), cache, 0⟩
    | .ok idSecret =>
      match storage (generate_secret_name connector_name .oauth2_client_secret none) with
      | .error .notFound =>
        ⟨.error ("OAuth2 credentials not found for connector '" ++
                 connector_name ++ "'"), cache, 0⟩
      | .error (.storageError e) =>
        ⟨.error ("Failed to retrieve OAuth2 credentials: " ++ e), cache, 0⟩
      | .ok secSecret =>
        let token_url := resolvedTokenUrl idSecret token_url_static
        let scopes := resolvedScopes idSecret scopes_static
        if token_url = "" then
          ⟨.error "OAuth2 token URL not configured", cache, 0⟩
        else
          let tok := exchange token_url idSecret.value secSecret.value scopes
          ⟨.ok ⟨"oauth2_client_credentials",
                [("Authorization", "Bearer " ++ tok)], [], [], some tok⟩,
           insertS cache cache_key tok, 1⟩

/-! ## `core/authenticated_client.py` — tool execution client (claims C6, C7, C10) -/

/-- `ToolExecutionClient._determine_http_method`: lower-case the tool name
and match verb substrings in priority order, independent of the endpoint. -/
def determine_http_method (tool : ConnectorTool) : String :=
  let n := (pyLowerStr tool.name).data
  if ["create", "add", "post", "submit"].any (fun v => containsSub n v.data) then
    "POST"
  else if ["update", "edit", "modify"].any (fun v => containsSub n v.data) then
    "PUT"
  else if ["delete", "remove"].any (fun v => containsSub n v.data) then
    "DELETE"
  else "GET"

/-- The same verb-priority table written from the spec sentence, as a
function of the bare lower-cased name, for comparison with the embedded
method. -/
def method_of_name_spec (lowerName : String) : String :=
  if ["create", "add", "post", "submit"].any
      (fun v => containsSub lowerName.data v.data) then "POST"
  else if ["update", "edit", "modify"].any
      (fun v => containsSub lowerName.data v.data) then "PUT"
  else if ["delete", "remove"].any
      (fun v => containsSub lowerName.data v.data) then "DELETE"
  else "GET"

/-- CPython `float(s)` mantissa: `digits [. digits*]` or `digits* . digits+`
(ASCII model, without underscore separators). -/
def floatMantissaOk (l : List Char) : Bool :=
  if l.contains '.' then
    let p := splitFirst '.' l
    p.1.all dgChar && p.2.all dgChar && !(p.2.contains '.') &&
      (!p.1.isEmpty || !p.2.isEmpty)
  else !l.isEmpty && l.all dgChar

/-- CPython `float(s)` exponent: `[+-]? digits+`. -/
def floatExpOk (l : List Char) : Bool :=
  let body := match l with
    | c :: cs => if c = '+' || c = '-' then cs else l
    | [] => l
  !body.isEmpty && body.all dgChar

/-- Does CPython `float(s)` succeed (ASCII model)?  Surrounding whitespace
and one sign are allowed, then either `inf`/`infinity`/`nan`
(case-insensitive) or a mantissa with an optional `e`-exponent. -/
def pyFloatOk (s : String) : Bool :=
  let l := (pyStrip s).data
  let body := match l with
    | c :: cs => if c = '+' || c = '-' then cs else l
    | [] => l
  let low := body.map pyLowerChar
  if low = "inf".data || low = "infinity".data || low = "nan".data then true
  else if body.contains 'e' || body.contains 'E' then
    let p := splitFirst 'e' (body.map (fun c => if c = 'E' then 'e' else c))
    floatMantissaOk p.1 && floatExpOk p.2 && !(p.2.contains 'e')
  else floatMantissaOk body

/-- One branch body of `_coerce_input_types`: coerce a single present,
non-`None` value toward the declared `type` of its field schema.  Strings
that look like ints become ints; strings accepted by `float()` become
floats; `true/1/yes/on` and `false/0/no/off` strings (case-insensitive)
become booleans; ints, floats and bools become strings for `string`
fields; non-list values are wrapped into singleton lists for `array`
fields; everything else is left unchanged. -/
def coerceVal (expected : String) (v : PyVal) : PyVal :=
  if expected = "integer" then
    match v with
    | .pstr s =>
      if pyIsDigit s || (startsW s.data ['-'] && pyIsDigit ⟨s.data.drop 1⟩) then
        .pint (pyInt s)
      else v
    | _ => v
  else if expected = "number" then
    match v with
    | .pstr s => if pyFloatOk s then .pfloat s else v
    | _ => v
  else if expected = "boolean" then
    match v with
    | .pstr s =>
      let lv := pyLowerStr s
      if lv = "true" || lv = "1" || lv = "yes" || lv = "on" then .pbool true
      else if lv = "false" || lv = "0" || lv = "no" || lv = "off" then .pbool false
      else v
    | _ => v
  else if expected = "string" then
    match v with
    | .pint n => .pstr (toString n)
    | .pbool b => .pstr (if b then "True" else "False")
    | .pfloat r => .pstr r
    | _ => v
  else if expected = "array" then
    match v with
    | .plist _ => v
    | _ => .plist [v]
  else v

/-- The per-field step of `_coerce_input_types`: skip fields absent from
the data, fields without a truthy declared string `type`, and `None`
values; otherwise store the coerced value back. -/
def coerceStep (acc : List (String × PyVal)) (kv : String × PyVal) :
    List (String × PyVal) :=
  match lookupD acc kv.1 with
  | none => acc
  | some cur =>
    match kv.2 with
    | .pdict fs =>
      match lookupD fs "type" with
      | some (.pstr et) =>
        if et = "" then acc
        else
          match cur with
          | .pnone => acc
          | _ => updateD acc kv.1 (coerceVal et cur)
      | _ => acc
    | _ => acc

/-- `ToolExecutionClient._coerce_input_types`: a copy of the input data
unless the schema is a truthy dict with a `properties` dict, else each
declared property present in the data is coerced in place. -/
def coerce_input_types (tool : ConnectorTool) (input_data : List (String × PyVal)) :
    List (String × PyVal) :=
  match tool.input_schema with
  | .pdict sd =>
    if sd.isEmpty || !hasKeyD sd "properties" then input_data
    else
      match lookupD sd "properties" with
      | some (.pdict props) => props.foldl coerceStep input_data
      | _ => input_data
  | _ => input_data

/-- The method tokens `_build_url` strips from the endpoint (note: no
`HEAD ` and no `OPTIONS `). -/
def buildUrlMethods : List String := ["GET ", "POST ", "PUT ", "DELETE ", "PATCH "]

/-- The endpoint-to-path step of `_build_url`: strip the first matching
method token and surrounding whitespace, else keep the endpoint whole. -/
def stripMethodToken (endpoint : String) : String :=
  match buildUrlMethods.find? (fun m => startsW endpoint.data m.data) with
  | some m => pyStrip ⟨endpoint.data.drop m.length⟩
  | none => endpoint

/-- Python `str.rstrip('/')`. -/
def rstripSlash (s : String) : String :=
  ⟨(s.data.reverse.dropWhile (fun c => c = '/')).reverse⟩

/-- Python `str.lstrip('/')`. -/
def lstripSlash (s : String) : String :=
  ⟨s.data.dropWhile (fun c => c = '/')⟩

/-- Python `str.replace` over character lists: replace occurrences of
`old` left to right without overlap (callers pass nonempty `old`; an empty
`old` is modelled as the identity). -/
def replaceL (old new : List Char) (l : List Char) : List Char :=
  match l with
  | [] => []
  | c :: cs =>
    if h : old ≠ [] ∧ startsW (c :: cs) old = true then
      new ++ replaceL old new ((c :: cs).drop old.length)
    else c :: replaceL old new cs
termination_by l.length
decreasing_by
  · simp only [List.length_drop, List.length_cons]
    have hol : 0 < old.length := List.length_pos.mpr h.1
    omega
  · simp [Nat.lt_succ_self]

/-- The `{key}` placeholder-substitution loop of `_build_url`. -/
def substitutePlaceholders (url : String) (input_data : List (String × PyVal)) :
    String :=
  input_data.foldl (fun u kv =>
    let ph := "\x7b" ++ kv.1 ++ "\x7d"
    if containsSub u.data ph.data then ⟨replaceL ph.data (pyStrV kv.2).data u.data⟩
    else u) url

/-- `ToolExecutionClient._build_url`: strip a known method token from the
endpoint, use the remainder as a full URL when it starts with `http`, else
join it to a truthy `base_url` (failing without one), then substitute
`{key}` placeholders from the input data. -/
def build_url (tool : ConnectorTool) (base_url : Option String)
    (input_data : List (String × PyVal)) : Except String String :=
  let path_part := stripMethodToken tool.endpoint
  let urlE : Except String String :=
    if startsW path_part.data "http".data then .ok path_part
    else
      match base_url with
      | some b =>
        if b = "" then
          .error ("Cannot build URL for tool '" ++ tool.name ++ "': no base URL provided")
        else .ok (rstripSlash b ++ "/" ++ lstripSlash path_part)
      | none =>
        .error ("Cannot build URL for tool '" ++ tool.name ++ "': no base URL provided")
  match urlE with
  | .error e => .error e
  | .ok url => .ok (substitutePlaceholders url input_data)

/-! ## `core/builtin_tools.py` — built-in tool handlers (claims C8, C9) -/

/-- `ToolParameter` of `core/builtin_tools.py` (`type` renamed `ptype`,
which Lean reserves). -/
structure ToolParameter where
  name : String
  ptype : String
  description : String
  required : Bool
  default : PyVal

/-- `BuiltinTool` of `core/builtin_tools.py`. -/
structure BuiltinTool where
  name : String
  description : String
  parameters : List ToolParameter
  category : String

/-- `ToolExecutionResult` of `core/builtin_tools.py`; content items are
the `{"type": "text", "text": ...}` dicts. -/
structure ToolExecutionResult where
  content : List PyVal
  is_error : Bool
  execution_time_ms : Nat

/-- A `{"type": "text", "text": txt}` content item. -/
def textContent (txt : String) : PyVal :=
  .pdict [("type", .pstr "text"), ("text", .pstr txt)]

/-- `BuiltinToolHandler._register_builtin_tools`: the echo, hello and
get_time tools with their parameter declarations. -/
def builtin_tools_registry : List (String × BuiltinTool) :=
  [("echo",
    ⟨"echo", "Echo back the input text exactly as provided",
     [⟨"text", "string", "Text to echo back", true, .pnone⟩], "builtin"⟩),
   ("hello",
    ⟨"hello", "Returns a friendly greeting message",
     [⟨"name", "string", "Optional name to include in greeting", false,
       .pstr "World"⟩], "builtin"⟩),
   ("get_time",
    ⟨"get_time", "Get the current date and time",
     [⟨"format", "string", "Time format (iso, timestamp, or human)", false,
       .pstr "iso"⟩], "builtin"⟩)]

/-- `BuiltinToolHandler.has_tool`: membership in the registry. -/
def has_builtin_tool (name : String) : Bool :=
  builtin_tools_registry.any (fun e => e.1 = name)

/-- The Python type name of a value, as it appears in `AttributeError`
messages. -/
def pyTypeName : PyVal → String
  | .pstr _ => "str"
  | .pint _ => "int"
  | .pbool _ => "bool"
  | .pfloat _ => "float"
  | .plist _ => "list"
  | .pdict _ => "dict"
  | .pnone => "NoneType"

/-- `BuiltinToolHandler._handle_echo`: `text = arguments.get("text", "")`,
raise unless it is a string, else echo it back. -/
def handle_echo (args : List (String × PyVal)) : Except String ToolExecutionResult :=
  let text := (lookupD args "text").getD (.pstr "")
  match text with
  | .pstr s => .ok ⟨[textContent s], false, 0⟩
  | _ => .error "The 'text' parameter must be a string"

/-- `BuiltinToolHandler._handle_hello`:
`name = arguments.get("name", "World")`, stringified (`None` becoming
`"World"`) and embedded into the fixed greeting. -/
def handle_hello (args : List (String × PyVal)) : Except String ToolExecutionResult :=
  let nv := (lookupD args "name").getD (.pstr "World")
  let nm :=
    match nv with
    | .pstr s => s
    | .pnone => "World"
    | v => pyStrV v
  .ok ⟨[textContent ("Hello, " ++ nm ++
    "! Welcome to the MCP Runtime Orchestrator. I'm here to help you execute tools and manage API connectors.")],
    false, 0⟩

/-- The wall-clock readings `_handle_get_time` can render (real time is
outside the embedding; each formatted reading is a parameter). -/
structure TimeEnv where
  iso : String
  timestamp : String
  human : String

/-- `BuiltinToolHandler._handle_get_time`:
`time_format = arguments.get("format", "iso").lower()` (an
`AttributeError` on non-strings), dispatch on the three formats, raising
on any other. -/
def handle_get_time (env : TimeEnv) (args : List (String × PyVal)) :
    Except String ToolExecutionResult :=
  let fv := (lookupD args "format").getD (.pstr "iso")
  match fv with
  | .pstr f =>
    let tf := pyLowerStr f
    let timeStr : Except String String :=
      if tf = "iso" then .ok env.iso
      else if tf = "timestamp" then .ok env.timestamp
      else if tf = "human" then .ok env.human
      else .error ("Invalid time format '" ++ tf ++ "'. Use 'iso', 'timestamp', or 'human'")
    match timeStr with
    | .ok t =>
      .ok ⟨[textContent ("Current time (" ++ tf ++ "): " ++ t)], false, 0⟩
    | .error e => .error e
  | v => .error ("'" ++ pyTypeName v ++ "' object has no attribute 'lower'")

/-- The body of the `try` block of `BuiltinToolHandler.execute_tool`:
unknown names raise, known names route to their handler. -/
def route_builtin (env : TimeEnv) (name : String) (args : List (String × PyVal)) :
    Except String ToolExecutionResult :=
  if !has_builtin_tool name then
    .error ("Built-in tool '" ++ name ++ "' not found")
  else if name = "echo" then handle_echo args
  else if name = "hello" then handle_hello args
  else if name = "get_time" then handle_get_time env args
  else .error ("No handler implemented for tool '" ++ name ++ "'")

/-- `BuiltinToolHandler.execute_tool`: run the routed handler; attach the
elapsed milliseconds (timestamps are outside the embedding; the measured
duration is the parameter `elapsed_ms`) to a successful result, and
convert any raised exception into an `is_error` result whose text carries
the exception's message. -/
def execute_builtin_tool (env : TimeEnv) (elapsed_ms : Nat) (name : String)
    (args : List (String × PyVal)) : ToolExecutionResult :=
  match route_builtin env name args with
  | .ok res => { res with execution_time_ms := elapsed_ms }
  | .error msg =>
    ⟨[textContent ("Error executing built-in tool '" ++ name ++ "': " ++ msg)],
     true, elapsed_ms⟩

/-! ## Concrete instances used to witness the theorems -/

/-- Trivially accepting `Draft7Validator.check_schema` oracle. -/
def chkTrue : PyVal → Bool := fun _ => true

/-- A minimal object schema `{"type": "object"}`. -/
def objSchema : PyVal := .pdict [("type", .pstr "object")]

/-- A small valid manifest. -/
def exManifest : ConnectorManifest :=
  ⟨"sample", "1.0.0",
   [⟨"get_item", "Fetches an item", objSchema, objSchema, "GET /items", .noAuth⟩],
   none⟩

/-- A tool whose schema declares the integer property `a`. -/
def toolIntEx : ConnectorTool :=
  ⟨"get_item", "Fetches an item",
   .pdict [("type", .pstr "object"),
           ("properties", .pdict [("a", .pdict [("type", .pstr "integer")])])],
   objSchema, "GET /items", .noAuth⟩

/-- A tool whose schema declares the boolean property `flag`. -/
def toolBoolEx : ConnectorTool :=
  ⟨"get_item", "Fetches an item",
   .pdict [("type", .pstr "object"),
           ("properties", .pdict [("flag", .pdict [("type", .pstr "boolean")])])],
   objSchema, "GET /items", .noAuth⟩

/-- A fixed wall-clock reading. -/
def envEx : TimeEnv := ⟨"2026-01-01T00:00:00", "1767225600", "Thursday"⟩

/-- Two tools sharing the name `create_item` but declaring different
endpoint methods. -/
def exToolCreateGet : ConnectorTool :=
  ⟨"create_item", "Creates an item", objSchema, objSchema, "GET /items", .noAuth⟩

/-- The same tool name with a `DELETE` endpoint declaration. -/
def exToolCreateDelete : ConnectorTool :=
  ⟨"create_item", "Creates an item", objSchema, objSchema, "DELETE /items", .noAuth⟩

/-- A tool whose endpoint is declared with the `HEAD` method. -/
def exToolHead : ConnectorTool :=
  ⟨"check_item", "Checks an item", objSchema, objSchema, "HEAD /x", .noAuth⟩

/-- Storage oracle holding an API key secret with no tags. -/
def exStorageApiKey : String → Except SecretErr SecretValue :=
  fun n => if n = "github-api_key" then .ok ⟨"ghp_token", []⟩ else .error .notFound

/-- Storage oracle holding OAuth2 client credentials with no tags. -/
def exStorageOAuth : String → Except SecretErr SecretValue :=
  fun n =>
    if n = "slack-oauth2_client_id" then .ok ⟨"client-id", []⟩
    else if n = "slack-oauth2_client_secret" then .ok ⟨"client-secret", []⟩
    else .error .notFound

/-- A token-exchange oracle returning a fixed token. -/
def exExchange : String → String → String → List String → String :=
  fun _ _ _ _ => "tok-123"

/-! # Theorems -/

/-! ## Character-level facts about the ASCII `lower` model -/

/-- `Char.ofNat` evaluates to its argument below the surrogate range. -/
theorem charToNat_ofNat {n : Nat} (h : n < 55296) : (Char.ofNat n).toNat = n := by
  rw [Char.ofNat, dif_pos (Or.inl h)]
  rfl

/-- Lowering a character cannot produce a character below code point 97
other than the character itself. -/
theorem pyLowerChar_eq_low {x : Char} (hx : x.toNat < 65) (c : Char) :
    pyLowerChar c = x ↔ c = x := by
  unfold pyLowerChar
  by_cases h : (65 ≤ c.toNat && c.toNat ≤ 90) = true
  · rw [if_pos h]
    simp only [Bool.and_eq_true, decide_eq_true_eq] at h
    constructor
    · intro he
      exfalso
      have hv : (Char.ofNat (c.toNat + 32)).toNat = c.toNat + 32 :=
        charToNat_ofNat (by omega)
      rw [he] at hv
      omega
    · intro he
      exfalso
      rw [he] at h
      omega
  · rw [if_neg h]

/-- Removing `@` commutes with ASCII lowering. -/
theorem stripAt_lower_comm (s : String) :
    stripChar '@' (pyLowerStr s) = pyLowerStr (stripChar '@' s) := by
  unfold stripChar pyLowerStr
  refine congrArg String.mk ?_
  rw [List.filter_map]
  refine congrArg (List.map pyLowerChar) ?_
  refine List.filter_congr ?_
  intro x _
  simp only [Function.comp_apply, decide_eq_decide]
  rw [not_iff_not]
  exact pyLowerChar_eq_low (by decide) x

/-- Replacing `/` by `-` commutes with ASCII lowering. -/
theorem swapSlash_lower_comm (s : String) :
    swapChar '/' '-' (pyLowerStr s) = pyLowerStr (swapChar '/' '-' s) := by
  unfold swapChar pyLowerStr
  refine congrArg String.mk ?_
  rw [List.map_map, List.map_map]
  refine List.map_congr_left ?_
  intro c _
  simp only [Function.comp_apply]
  by_cases hc : c = '/'
  · subst hc
    rfl
  · rw [if_neg hc, if_neg]
    rw [pyLowerChar_eq_low (by decide)]
    exact hc

/-- C1 (amended): `generate_secret_name` returns the lowercase
concatenation `connector_name + "-" + secret_type.value`
(`+ "-" + suffix` when a nonempty suffix is given) with every `@` removed
and every `/` replaced by `-`; in particular it is reproducible from its
arguments alone.  (The claim as frozen says `/` is removed; the code and
its own tests replace it by `-`, see `C1_counterexample`.) -/
theorem C1_generate_secret_name_amended (cn : String) (st : SecretType)
    (suf : Option String) :
    generate_secret_name cn st suf = generate_secret_name_specAmended cn st suf := by
  unfold generate_secret_name generate_secret_name_specAmended
  dsimp only
  rw [stripAt_lower_comm, swapSlash_lower_comm]

/-- C1 (counterexample): on the connector name `a/b` the code yields
`a-b-api_key` while the claim's strip-both-characters formula yields
`ab-api_key`, so the claim as stated is false. -/
theorem C1_counterexample :
    generate_secret_name "a/b" .api_key none = "a-b-api_key" ∧
    generate_secret_name_specStripBoth "a/b" .api_key none = "ab-api_key" ∧
    generate_secret_name "a/b" .api_key none ≠
      generate_secret_name_specStripBoth "a/b" .api_key none := by
  refine ⟨?_, ?_, ?_⟩ <;> decide

/-! ## C2 — hot-reload update detection -/

/-- One `check_for_updates` iteration appends exactly the reported name. -/
theorem checkConnUpdate_eq (fs : String → Option Nat) (acc : List String)
    (c : RegConnector) :
    checkConnUpdate fs acc c = if reportsUpdate fs c then acc ++ [c.name] else acc := by
  unfold checkConnUpdate reportsUpdate truthyOptStr truthyOptNat
  rcases hp : c.file_path with _ | p <;> rcases hm : c.file_mtime with _ | m <;> simp
  by_cases hpe : p = ""
  · simp [hpe]
  · by_cases hme : m = 0
    · simp [hpe, hme]
    · simp only [hpe, hme]
      rcases hfs : fs p with _ | cur <;> simp

/-- The scan of `check_for_updates` collects the reported names in order. -/
theorem check_foldl_eq (fs : String → Option Nat) :
    ∀ (cs : List RegConnector) (acc : List String),
      cs.foldl (checkConnUpdate fs) acc =
        acc ++ (cs.filter (reportsUpdate fs)).map RegConnector.name := by
  intro cs
  induction cs with
  | nil => intro acc; simp
  | cons d rest ih =>
    intro acc
    rw [List.foldl_cons, checkConnUpdate_eq, List.filter_cons]
    by_cases hd : reportsUpdate fs d = true
    · rw [if_pos hd, if_pos hd, ih, List.map_cons]
      simp
    · rw [if_neg hd, if_neg hd, ih]

/-- `check_for_updates` with hot-reload on is exactly the name scan. -/
theorem check_for_updates_eq (fs : String → Option Nat) (cs : List RegConnector) :
    check_for_updates true fs (some cs) =
      (cs.filter (reportsUpdate fs)).map RegConnector.name := by
  have h := check_foldl_eq fs cs []
  simpa [check_for_updates] using h

/-- A reported connector with a unique name appears exactly once in the
collected scan. -/
theorem count_name_filter (fs : String → Option Nat) (c : RegConnector)
    (hc : reportsUpdate fs c = true) :
    ∀ cs : List RegConnector, c ∈ cs → (cs.map RegConnector.name).Nodup →
      ((cs.filter (reportsUpdate fs)).map RegConnector.name).count c.name = 1 := by
  intro cs
  induction cs with
  | nil => intro h; cases h
  | cons d rest ih =>
    intro hmem hnd
    rw [List.map_cons, List.nodup_cons] at hnd
    rcases List.mem_cons.mp hmem with rfl | hmem'
    · rw [List.filter_cons, if_pos hc, List.map_cons, List.count_cons_self]
      have hz : ((rest.filter (reportsUpdate fs)).map RegConnector.name).count c.name = 0 := by
        rw [List.count_eq_zero]
        intro hin
        apply hnd.1
        obtain ⟨x, hx, hxe⟩ := List.mem_map.mp hin
        exact List.mem_map.mpr ⟨x, (List.mem_filter.mp hx).1, hxe⟩
      omega
    · have hne : d.name ≠ c.name := by
        intro he
        apply hnd.1
        rw [he]
        exact List.mem_map.mpr ⟨c, hmem', rfl⟩
      rw [List.filter_cons]
      by_cases hd : reportsUpdate fs d = true
      · rw [if_pos hd, List.map_cons, List.count_cons_of_ne (Ne.symm hne)]
        exact ih hmem' hnd.2
      · rw [if_neg hd]
        exact ih hmem' hnd.2

/-- C2 (amended): with hot-reload enabled, a file-backed connector whose
recorded (truthy) modification time is older than the file's current one
is reported by `check_for_updates` exactly once **per call**; since the
method never updates the recorded modification time, an immediately
following second call on the unchanged registry reports it exactly once
again — not nothing (see `C2_counterexample`; only `hot_reload_connector`
advances the recorded time). -/
theorem C2_check_for_updates_amended (fs : String → Option Nat)
    (cs : List RegConnector) (c : RegConnector) (p : String) (m cur : Nat)
    (hmem : c ∈ cs) (hnd : (cs.map RegConnector.name).Nodup)
    (hp : c.file_path = some p) (hpne : p ≠ "")
    (hm : c.file_mtime = some m) (hmne : m ≠ 0)
    (hfs : fs p = some cur) (hlt : m < cur) :
    (check_for_updates true fs (some cs)).count c.name = 1 := by
  have hrep : reportsUpdate fs c = true := by
    unfold reportsUpdate
    rw [hp, hm]
    simp [hpne, hmne, hfs, hlt]
  rw [check_for_updates_eq]
  exact count_name_filter fs c hrep cs hmem hnd

/-- C2 (witness): the amended theorem applied to the one-connector
registry `[exConn]` under the filesystem oracle `exFs`. -/
theorem C2_check_for_updates_witness :
    (check_for_updates true exFs (some [exConn])).count exConn.name = 1 :=
  C2_check_for_updates_amended exFs [exConn] exConn "conn.yaml" 1 2
    (List.mem_singleton.mpr rfl) (by decide) rfl (by decide) rfl (by decide)
    rfl (by decide)

/-- C2 (counterexample): both the call after the touch and an immediately
repeated call are the same pure application on the unchanged registry
state (nothing in `check_for_updates` writes the recorded mtime), and that
application returns `["conn"]`, not the empty report the claim requires of
the second call. -/
theorem C2_counterexample :
    check_for_updates true exFs (some [exConn]) = ["conn"] ∧
    check_for_updates true exFs (some [exConn]) ≠ ([] : List String) := by
  refine ⟨?_, ?_⟩ <;> decide

/-! ## C3 — manifest YAML round trip -/

/-- Dumped string lists re-validate to themselves. -/
theorem allStrings_map_pstr (l : List String) :
    allStrings (l.map PyVal.pstr) = some l := by
  induction l with
  | nil => rfl
  | cons s rest ih => simp [allStrings, ih]

/-- A dumped auth value parses back to itself. -/
theorem parseAuth_dumpAuth (a : ToolAuth) (h : authOk a = true) :
    parseAuth (dumpAuth a) = .ok a := by
  cases a with
  | noAuth => rfl
  | apiKey k l sch =>
    have h' : (decide (l = "header") || decide (l = "query") ||
        decide (l = "cookie")) = true := h
    simp only [Bool.or_eq_true, decide_eq_true_eq] at h'
    rcases h' with (h' | h') | h' <;> subst h' <;> cases sch <;>
      simp [parseAuth, dumpAuth, lookupD]
  | oauth2 u sc =>
    cases sc with
    | none => rfl
    | some l => simp [parseAuth, dumpAuth, lookupD, allStrings_map_pstr]

/-- A dumped valid tool parses back to itself. -/
theorem parseTool_dumpTool (chk : PyVal → Bool) (t : ConnectorTool)
    (h : validTool chk t = true) : parseTool chk (dumpTool t) = .ok t := by
  unfold validTool at h
  simp only [Bool.and_eq_true] at h
  obtain ⟨⟨⟨⟨⟨⟨⟨hlen, hname⟩, hdesc⟩, his⟩, hos⟩, heplen⟩, hep⟩, hauth⟩ := h
  have ha := parseAuth_dumpAuth t.auth hauth
  unfold parseTool dumpTool
  simp [lookupD, hlen.1, hlen.2, hname, hdesc.1, hdesc.2, his, hos,
        heplen.1, heplen.2, hep, ha]

/-- A dumped list of valid tools parses back to itself. -/
theorem parseTools_map_dumpTool (chk : PyVal → Bool) :
    ∀ ts : List ConnectorTool, ts.all (validTool chk) = true →
      parseTools chk (ts.map dumpTool) = .ok ts := by
  intro ts
  induction ts with
  | nil => intro _; rfl
  | cons t rest ih =>
    intro h
    rw [List.all_cons, Bool.and_eq_true] at h
    rw [List.map_cons]
    unfold parseTools
    rw [parseTool_dumpTool chk t h.1, ih h.2]

/-- C3: for every valid manifest, `from_yaml_dict (to_yaml_dict m)`
succeeds and reconstructs a manifest with the same name, the same version
and the same number of tools. -/
theorem C3_manifest_roundtrip (chk : PyVal → Bool) (m : ConnectorManifest)
    (h : validManifest chk m = true) :
    ∃ m', from_yaml_dict chk (to_yaml_dict m) = .ok m' ∧
      m'.name = m.name ∧ m'.version = m.version ∧
      m'.tools.length = m.tools.length := by
  unfold validManifest at h
  simp only [Bool.and_eq_true] at h
  obtain ⟨⟨⟨⟨⟨⟨hnlen, hname⟩, hver⟩, htlen⟩, hall⟩, hnames⟩, heps⟩ := h
  have hts := parseTools_map_dumpTool chk m.tools hall
  rcases hb : m.base_url with _ | b
  · refine ⟨⟨m.name, m.version, m.tools, none⟩, ?_, rfl, rfl, rfl⟩
    unfold from_yaml_dict to_yaml_dict parseManifest
    rw [hb]
    simp [lookupD, hnlen.1, hnlen.2, hname, hver, htlen.1, htlen.2,
          hts, hnames, heps]
  · by_cases hbe : b = ""
    · refine ⟨⟨m.name, m.version, m.tools, none⟩, ?_, rfl, rfl, rfl⟩
      unfold from_yaml_dict to_yaml_dict parseManifest
      rw [hb]
      simp [hbe, lookupD, hnlen.1, hnlen.2, hname, hver, htlen.1, htlen.2,
            hts, hnames, heps]
    · refine ⟨⟨m.name, m.version, m.tools, some b⟩, ?_, rfl, rfl, rfl⟩
      unfold from_yaml_dict to_yaml_dict parseManifest
      rw [hb]
      simp [hbe, lookupD, hnlen.1, hnlen.2, hname, hver, htlen.1, htlen.2,
            hts, hnames, heps]

/-- C3 (witness): the round trip on the concrete manifest `exManifest`
under a trivially accepting schema checker. -/
theorem C3_manifest_roundtrip_witness :
    validManifest chkTrue exManifest = true ∧
    (∃ m', from_yaml_dict chkTrue (to_yaml_dict exManifest) = .ok m' ∧
      m'.name = exManifest.name ∧ m'.version = exManifest.version ∧
      m'.tools.length = exManifest.tools.length) :=
  ⟨by decide, C3_manifest_roundtrip chkTrue exManifest (by decide)⟩

/-! ## C4 — API-key credential placement -/

/-- C4: when the secret lookup succeeds, the resolver places
`"{scheme} {key}"` (when a scheme is resolved from tags or the static
declaration) or the bare key under the resolved key name in exactly the
map matching the resolved location, leaving the other two maps empty; a
location outside header/query/cookie yields a credential-resolution
error; with scheme `Bearer` the value is `"Bearer " ++ key`. -/
theorem C4_api_key_resolution (storage : String → Except SecretErr SecretValue)
    (cn kn loc : String) (sch : Option String) (secret : SecretValue)
    (hs : storage (generate_secret_name cn .api_key none) = .ok secret) :
    (resolvedLocation secret loc = "header" →
      resolve_api_key_credentials storage cn kn loc sch =
        .ok ⟨"api_key", [(resolvedKeyName secret kn, apiKeyAuthValue secret sch)],
             [], [], none⟩) ∧
    (resolvedLocation secret loc = "query" →
      resolve_api_key_credentials storage cn kn loc sch =
        .ok ⟨"api_key", [], [(resolvedKeyName secret kn, apiKeyAuthValue secret sch)],
             [], none⟩) ∧
    (resolvedLocation secret loc = "cookie" →
      resolve_api_key_credentials storage cn kn loc sch =
        .ok ⟨"api_key", [], [],
             [(resolvedKeyName secret kn, apiKeyAuthValue secret sch)], none⟩) ∧
    (resolvedLocation secret loc ≠ "header" → resolvedLocation secret loc ≠ "query" →
      resolvedLocation secret loc ≠ "cookie" →
      resolve_api_key_credentials storage cn kn loc sch =
        .error ("Unsupported API key location: " ++ resolvedLocation secret loc)) ∧
    (resolvedScheme secret sch = some "Bearer" →
      apiKeyAuthValue secret sch = "Bearer " ++ secret.value) := by
  refine ⟨?_, ?_, ?_, ?_, ?_⟩
  · intro hl
    simp [resolve_api_key_credentials, hs, hl]
  · intro hl
    simp [resolve_api_key_credentials, hs, hl]
  · intro hl
    simp [resolve_api_key_credentials, hs, hl]
  · intro h1 h2 h3
    simp [resolve_api_key_credentials, hs, h1, h2, h3]
  · intro hsch
    simp [apiKeyAuthValue, hsch]

/-- C4 (witness): a header-located key with static scheme `Bearer` and
key name `authorization` resolves to the `authorization` header
`Bearer ghp_token` with empty query/cookie maps, and a query-located key
without scheme places the bare key under `query_params` with empty
headers. -/
theorem C4_api_key_resolution_witness :
    resolve_api_key_credentials exStorageApiKey "github" "authorization" "header"
        (some "Bearer") =
      .ok ⟨"api_key", [("authorization", "Bearer ghp_token")], [], [], none⟩ ∧
    resolve_api_key_credentials exStorageApiKey "github" "api_key" "query" none =
      .ok ⟨"api_key", [], [("api_key", "ghp_token")], [], none⟩ :=
  ⟨(C4_api_key_resolution exStorageApiKey "github" "authorization" "header"
      (some "Bearer") ⟨"ghp_token", []⟩ rfl).1 rfl,
   (C4_api_key_resolution exStorageApiKey "github" "api_key" "query"
      none ⟨"ghp_token", []⟩ rfl).2.1 rfl⟩

/-! ## C5 — OAuth2 token caching -/

/-- Writing the token under the cache key makes it readable there. -/
theorem lookupS_insertS_self (d : List (String × String)) (k v : String) :
    lookupS (insertS d k v) k = some v := by
  induction d with
  | nil => simp [insertS, lookupS, List.find?]
  | cons e rest ih =>
    by_cases he : e.1 = k
    · simp [insertS, List.any_cons, he, lookupS, List.find?]
    · have h2 : insertS (e :: rest) k v = e :: insertS rest k v := by
        by_cases hr : rest.any (fun x => x.1 = k) = true <;>
          simp [insertS, List.any_cons, he, hr]
      have hstep : lookupS (e :: insertS rest k v) k = lookupS (insertS rest k v) k := by
        simp [lookupS, List.find?, he]
      rw [h2, hstep, ih]

/-- C5: with no cached token, a successful resolution performs exactly one
token exchange, returns the obtained token as a Bearer Authorization
header, and stores it under `"{connector_name}:oauth2"`; any resolution
that finds a cached token performs zero exchanges and returns that
identical token as a Bearer Authorization header, leaving the cache
unchanged — so every call after the first returns the first call's
token with no further exchange. -/
theorem C5_oauth2_token_caching (storage : String → Except SecretErr SecretValue)
    (exchange : String → String → String → List String → String)
    (cache : List (String × String)) (cn turl : String)
    (scst : Option (List String)) (idS secS : SecretValue)
    (h1 : lookupS cache (cn ++ ":oauth2") = none)
    (h2 : storage (generate_secret_name cn .oauth2_client_id none) = .ok idS)
    (h3 : storage (generate_secret_name cn .oauth2_client_secret none) = .ok secS)
    (h4 : resolvedTokenUrl idS turl ≠ "") :
    (resolve_oauth2_credentials storage exchange cache cn turl scst).exchangeCalls = 1 ∧
    (resolve_oauth2_credentials storage exchange cache cn turl scst).result =
      .ok ⟨"oauth2_client_credentials",
           [("Authorization", "Bearer " ++
              exchange (resolvedTokenUrl idS turl) idS.value secS.value
                (resolvedScopes idS scst))], [], [],
           some (exchange (resolvedTokenUrl idS turl) idS.value secS.value
                (resolvedScopes idS scst))⟩ ∧
    lookupS (resolve_oauth2_credentials storage exchange cache cn turl scst).cache
        (cn ++ ":oauth2") =
      some (exchange (resolvedTokenUrl idS turl) idS.value secS.value
        (resolvedScopes idS scst)) ∧
    (∀ (cache' : List (String × String)) (t : String),
      lookupS cache' (cn ++ ":oauth2") = some t →
      resolve_oauth2_credentials storage exchange cache' cn turl scst =
        ⟨.ok ⟨"oauth2_client_credentials",
              [("Authorization", "Bearer " ++ t)], [], [], some t⟩, cache', 0⟩) := by
  refine ⟨?_, ?_, ?_, ?_⟩
  · simp [resolve_oauth2_credentials, h1, h2, h3, h4]
  · simp [resolve_oauth2_credentials, h1, h2, h3, h4]
  · simp [resolve_oauth2_credentials, h1, h2, h3, h4, lookupS_insertS_self]
  · intro cache' t hc
    simp [resolve_oauth2_credentials, hc]

/-- C5 (witness): on the `slack` connector with an empty cache, the first
resolution performs one exchange; re-resolving on the resulting cache
returns the identical token `tok-123` as a Bearer header with zero
exchanges and the cache unchanged. -/
theorem C5_oauth2_token_caching_witness :
    (resolve_oauth2_credentials exStorageOAuth exExchange [] "slack"
        "https://slack.test/token" none).exchangeCalls = 1 ∧
    resolve_oauth2_credentials exStorageOAuth exExchange
        (resolve_oauth2_credentials exStorageOAuth exExchange [] "slack"
          "https://slack.test/token" none).cache
        "slack" "https://slack.test/token" none =
      ⟨.ok ⟨"oauth2_client_credentials",
            [("Authorization", "Bearer tok-123")], [], [], some "tok-123"⟩,
       (resolve_oauth2_credentials exStorageOAuth exExchange [] "slack"
          "https://slack.test/token" none).cache, 0⟩ := by
  have h := C5_oauth2_token_caching exStorageOAuth exExchange [] "slack"
    "https://slack.test/token" none ⟨"client-id", []⟩ ⟨"client-secret", []⟩
    rfl rfl rfl (by decide)
  exact ⟨h.1, h.2.2.2 _ "tok-123" h.2.2.1⟩

/-! ## C6 — HTTP method heuristic -/

/-- C6: the HTTP method is computed solely from the lower-cased tool name
by the spec's verb-priority table (`create|add|post|submit` → POST, else
`update|edit|modify` → PUT, else `delete|remove` → DELETE, else GET), and
two tools with the same name — whatever their endpoints declare — get the
same method. -/
theorem C6_http_method_heuristic :
    (∀ t : ConnectorTool,
      determine_http_method t = method_of_name_spec (pyLowerStr t.name)) ∧
    (∀ t₁ t₂ : ConnectorTool, t₁.name = t₂.name →
      determine_http_method t₁ = determine_http_method t₂) := by
  constructor
  · intro t
    rfl
  · intro t₁ t₂ h
    unfold determine_http_method
    rw [h]

/-- C6 (witness): `create_item` maps to POST, and its method is identical
whether the endpoint declares `GET /items` or `DELETE /items`. -/
theorem C6_http_method_heuristic_witness :
    determine_http_method exToolCreateGet = "POST" ∧
    determine_http_method exToolCreateGet = determine_http_method exToolCreateDelete :=
  ⟨by decide, C6_http_method_heuristic.2 exToolCreateGet exToolCreateDelete rfl⟩

/-! ## C7 — input type coercion -/

/-- C7: before validation, a digit-sequence string (optionally
`-`-prefixed) destined for an integer field becomes that integer; a string
lowering to `true/1/yes/on` destined for a boolean field becomes `true`
and one lowering to `false/0/no/off` becomes `false`; a string `float()`
rejects destined for a number field is left at its original value rather
than raising; concretely, `{"a": "42"}` under an integer-typed `a` coerces
to integer 42 and `{"flag": "yes"}` under a boolean-typed `flag` coerces
to `true`. -/
theorem C7_input_type_coercion :
    (∀ s : String,
      (pyIsDigit s || (startsW s.data ['-'] && pyIsDigit ⟨s.data.drop 1⟩)) = true →
      coerceVal "integer" (.pstr s) = .pint (pyInt s)) ∧
    (∀ s : String,
      (pyLowerStr s = "true" ∨ pyLowerStr s = "1" ∨ pyLowerStr s = "yes" ∨
        pyLowerStr s = "on") →
      coerceVal "boolean" (.pstr s) = .pbool true) ∧
    (∀ s : String,
      (pyLowerStr s = "false" ∨ pyLowerStr s = "0" ∨ pyLowerStr s = "no" ∨
        pyLowerStr s = "off") →
      coerceVal "boolean" (.pstr s) = .pbool false) ∧
    (∀ s : String, pyFloatOk s = false → coerceVal "number" (.pstr s) = .pstr s) ∧
    coerce_input_types toolIntEx [("a", .pstr "42")] = [("a", .pint 42)] ∧
    coerce_input_types toolBoolEx [("flag", .pstr "yes")] = [("flag", .pbool true)] := by
  refine ⟨?_, ?_, ?_, ?_, ?_, ?_⟩
  · intro s h
    unfold coerceVal
    rw [if_pos rfl]
    dsimp only
    rw [if_pos h]
  · intro s h
    rcases h with h | h | h | h <;> simp [coerceVal, h]
  · intro s h
    rcases h with h | h | h | h <;> simp [coerceVal, h]
  · intro s h
    simp [coerceVal, h]
  · rfl
  · rfl

/-- C7 (witness): the general clauses instantiated at `-7`, `YES`, `Off`
and `hello`. -/
theorem C7_input_type_coercion_witness :
    coerceVal "integer" (.pstr "-7") = .pint (-7) ∧
    coerceVal "boolean" (.pstr "YES") = .pbool true ∧
    coerceVal "boolean" (.pstr "Off") = .pbool false ∧
    coerceVal "number" (.pstr "hello") = .pstr "hello" :=
  ⟨C7_input_type_coercion.1 "-7" (by decide),
   C7_input_type_coercion.2.1 "YES" (by decide),
   C7_input_type_coercion.2.2.1 "Off" (by decide),
   C7_input_type_coercion.2.2.2.1 "hello" (by decide)⟩

/-! ## C8 — built-in execution failure containment -/

/-- C8: every built-in execution carries the measured elapsed
milliseconds, successes are returned with only the time attached, and any
exception raised inside the routed handler (unknown tool name, non-string
echo text, unknown time format, ...) is converted into an
`is_error = true` result whose content text carries the exception's
message instead of propagating. -/
theorem C8_builtin_error_containment (env : TimeEnv) (elapsed : Nat)
    (name : String) (args : List (String × PyVal)) :
    (execute_builtin_tool env elapsed name args).execution_time_ms = elapsed ∧
    (∀ msg, route_builtin env name args = .error msg →
      execute_builtin_tool env elapsed name args =
        ⟨[textContent ("Error executing built-in tool '" ++ name ++ "': " ++ msg)],
         true, elapsed⟩) ∧
    (∀ res, route_builtin env name args = .ok res →
      execute_builtin_tool env elapsed name args =
        { res with execution_time_ms := elapsed }) ∧
    route_builtin env "not_a_tool" args =
      .error "Built-in tool 'not_a_tool' not found" ∧
    route_builtin env "echo" [("text", .pint 5)] =
      .error "The 'text' parameter must be a string" ∧
    route_builtin env "get_time" [("format", .pstr "weird")] =
      .error "Invalid time format 'weird'. Use 'iso', 'timestamp', or 'human'" := by
  refine ⟨?_, ?_, ?_, ?_, ?_, ?_⟩
  · cases hr : route_builtin env name args with
    | ok res => simp [execute_builtin_tool, hr]
    | error msg => simp [execute_builtin_tool, hr]
  · intro msg h
    simp [execute_builtin_tool, h]
  · intro res h
    simp [execute_builtin_tool, h]
  · simp [route_builtin, has_builtin_tool, builtin_tools_registry]
  · rfl
  · rfl

/-- C8 (witness): a non-string echo argument yields the contained error
result with the elapsed time attached. -/
theorem C8_builtin_error_containment_witness :
    (execute_builtin_tool envEx 5 "echo" [("text", .pint 5)]).execution_time_ms = 5 ∧
    execute_builtin_tool envEx 5 "echo" [("text", .pint 5)] =
      ⟨[textContent
          "Error executing built-in tool 'echo': The 'text' parameter must be a string"],
       true, 5⟩ := by
  have h := C8_builtin_error_containment envEx 5 "echo" [("text", .pint 5)]
  exact ⟨h.1, h.2.1 _ rfl⟩

/-! ## C9 — echo with a missing `text` argument -/

/-- C9: executing echo with no `text` key succeeds with empty content
text (the `arguments.get("text", "")` default) even though the registered
echo declaration marks `text` as required; only a present non-string
`text` value produces an error result. -/
theorem C9_echo_missing_text (env : TimeEnv) (elapsed : Nat) :
    (∀ args, lookupD args "text" = none →
      execute_builtin_tool env elapsed "echo" args =
        ⟨[textContent ""], false, elapsed⟩) ∧
    (∀ args v, lookupD args "text" = some v → (∀ s, v ≠ .pstr s) →
      (execute_builtin_tool env elapsed "echo" args).is_error = true) ∧
    ((builtin_tools_registry.lookup "echo").map
      (fun t => t.parameters.any (fun p => p.name = "text" && p.required))) =
      some true := by
  refine ⟨?_, ?_, ?_⟩
  · intro args h
    simp [execute_builtin_tool, route_builtin, has_builtin_tool,
          builtin_tools_registry, handle_echo, h]
  · intro args v hv hns
    cases v with
    | pstr s => exact absurd rfl (hns s)
    | pint n =>
      simp [execute_builtin_tool, route_builtin, has_builtin_tool,
            builtin_tools_registry, handle_echo, hv]
    | pbool b =>
      simp [execute_builtin_tool, route_builtin, has_builtin_tool,
            builtin_tools_registry, handle_echo, hv]
    | pfloat r =>
      simp [execute_builtin_tool, route_builtin, has_builtin_tool,
            builtin_tools_registry, handle_echo, hv]
    | plist xs =>
      simp [execute_builtin_tool, route_builtin, has_builtin_tool,
            builtin_tools_registry, handle_echo, hv]
    | pdict es =>
      simp [execute_builtin_tool, route_builtin, has_builtin_tool,
            builtin_tools_registry, handle_echo, hv]
    | pnone =>
      simp [execute_builtin_tool, route_builtin, has_builtin_tool,
            builtin_tools_registry, handle_echo, hv]
  · rfl

/-- C9 (witness): echo on an empty argument map succeeds with empty text;
echo on `{"text": None}` errors. -/
theorem C9_echo_missing_text_witness :
    execute_builtin_tool envEx 3 "echo" [] = ⟨[textContent ""], false, 3⟩ ∧
    (execute_builtin_tool envEx 3 "echo" [("text", .pnone)]).is_error = true := by
  have h := C9_echo_missing_text envEx 3
  exact ⟨h.1 [] rfl, h.2.1 [("text", .pnone)] .pnone rfl (fun s hs => by cases hs)⟩

/-! ## C10 — HEAD/OPTIONS method tokens are not stripped from URLs -/

/-- A list starts with itself before any continuation. -/
theorem startsW_self_append (n l : List Char) : startsW (n ++ l) n = true := by
  induction n with
  | nil => cases l <;> rfl
  | cons c rest ih => simp [startsW, ih]

/-- Containment survives prepending. -/
theorem containsSub_append_left (a b n : List Char)
    (h : containsSub b n = true) : containsSub (a ++ b) n = true := by
  induction a with
  | nil => simpa using h
  | cons c rest ih =>
    rw [List.cons_append, containsSub]
    simp [ih]

/-- A list contains any run it is built around. -/
theorem containsSub_around (a n l : List Char) :
    containsSub (a ++ (n ++ l)) n = true := by
  apply containsSub_append_left
  cases n with
  | nil => cases l <;> rfl
  | cons c cs =>
    rw [List.cons_append, containsSub]
    have hs := startsW_self_append (c :: cs) l
    rw [List.cons_append] at hs
    simp [hs]

/-- C10: `validate_endpoint` accepts `HEAD /x` and `OPTIONS /x`, yet
`_build_url` strips only the GET/POST/PUT/DELETE/PATCH tokens (witness:
`GET /x` loses its token), so a tool endpoint declared with `HEAD` or
`OPTIONS` keeps its method token and the built URL contains the literal
`"HEAD "`/`"OPTIONS "` text in its path. -/
theorem C10_head_options_not_stripped :
    endpointOk "HEAD /x" = true ∧ endpointOk "OPTIONS /x" = true ∧
    stripMethodToken "GET /x" = "/x" ∧
    (∀ (rest b : String) (t : ConnectorTool), t.endpoint = "HEAD " ++ rest →
      b ≠ "" →
      build_url t (some b) [] = .ok (rstripSlash b ++ "/" ++ ("HEAD " ++ rest)) ∧
      containsSub (rstripSlash b ++ "/" ++ ("HEAD " ++ rest)).data
        "HEAD ".data = true) ∧
    (∀ (rest b : String) (t : ConnectorTool), t.endpoint = "OPTIONS " ++ rest →
      b ≠ "" →
      build_url t (some b) [] = .ok (rstripSlash b ++ "/" ++ ("OPTIONS " ++ rest)) ∧
      containsSub (rstripSlash b ++ "/" ++ ("OPTIONS " ++ rest)).data
        "OPTIONS ".data = true) := by
  refine ⟨by decide, by decide, by decide, ?_, ?_⟩
  · intro rest b t hep hb
    have hd : ("HEAD " ++ rest).data = 'H' :: 'E' :: 'A' :: 'D' :: ' ' :: rest.data := by
      simp [String.data_append]
    have hstrip : stripMethodToken ("HEAD " ++ rest) = "HEAD " ++ rest := by
      unfold stripMethodToken buildUrlMethods
      simp [hd, startsW, List.find?]
    have hlstrip : lstripSlash ("HEAD " ++ rest) = "HEAD " ++ rest := by
      unfold lstripSlash
      rw [hd]
      simp [List.dropWhile]
      rw [← hd]
    have hnh : startsW ('H' :: 'E' :: 'A' :: 'D' :: ' ' :: rest.data)
        ['h', 't', 't', 'p'] = false := by
      simp [startsW]
    constructor
    · unfold build_url
      rw [hep, hstrip]
      simp [hd, hnh, hb, hlstrip, substitutePlaceholders]
    · have : (rstripSlash b ++ "/" ++ ("HEAD " ++ rest)).data =
          (rstripSlash b ++ "/").data ++ ("HEAD ".data ++ rest.data) := by
        simp [String.data_append]
      rw [this]
      exact containsSub_around _ _ _
  · intro rest b t hep hb
    have hd : ("OPTIONS " ++ rest).data =
        'O' :: 'P' :: 'T' :: 'I' :: 'O' :: 'N' :: 'S' :: ' ' :: rest.data := by
      simp [String.data_append]
    have hstrip : stripMethodToken ("OPTIONS " ++ rest) = "OPTIONS " ++ rest := by
      unfold stripMethodToken buildUrlMethods
      simp [hd, startsW, List.find?]
    have hlstrip : lstripSlash ("OPTIONS " ++ rest) = "OPTIONS " ++ rest := by
      unfold lstripSlash
      rw [hd]
      simp [List.dropWhile]
      rw [← hd]
    have hnh : startsW ('O' :: 'P' :: 'T' :: 'I' :: 'O' :: 'N' :: 'S' :: ' ' :: rest.data)
        ['h', 't', 't', 'p'] = false := by
      simp [startsW]
    constructor
    · unfold build_url
      rw [hep, hstrip]
      simp [hd, hnh, hb, hlstrip, substitutePlaceholders]
    · have : (rstripSlash b ++ "/" ++ ("OPTIONS " ++ rest)).data =
          (rstripSlash b ++ "/").data ++ ("OPTIONS ".data ++ rest.data) := by
        simp [String.data_append]
      rw [this]
      exact containsSub_around _ _ _

/-- C10 (witness): the `HEAD /x` endpoint of `exToolHead` builds the URL
`https://api.example.com/HEAD /x`, which contains the literal `"HEAD "`. -/
theorem C10_head_options_not_stripped_witness :
    build_url exToolHead (some "https://api.example.com") [] =
      .ok "https://api.example.com/HEAD /x" ∧
    containsSub "https://api.example.com/HEAD /x".data "HEAD ".data = true := by
  have h := C10_head_options_not_stripped.2.2.2.1 "/x" "https://api.example.com"
    exToolHead rfl (by decide)
  exact ⟨h.1, by decide⟩

end MCPRuntime
